import Mathlib

/-!
Shallow embedding of the rpi-fan-util controller (src/main.c) and proofs about
its configuration codec, its command-line invocation flow, and the adaptive
thermal governor loop.

Machine integers are modelled as Nat/Int with explicit reductions:
32-bit signed arithmetic two's-complement wraps via wrap32, conversion to
uint64_t / uint8_t via toU64 / toU8, C integer division (truncation toward
zero, positive divisor) via cdiv100.  Division by zero is undefined behavior
in C and is modelled by an Option result.
-/

namespace RpiFan

/-- PWM_PERIOD constant of main.c (50 ms period in nanoseconds). -/
def PWM_PERIOD : ℕ := 50000000

/-- The fan_config union of main.c: one byte, gpio_num in the low 5 bits and
pwm_mode in the next 3 bits.  Field values are kept already reduced to their
bit widths, exactly as the C bit-fields store them. -/
structure fan_config where
  gpio_num : ℕ
  pwm_mode : ℕ
deriving DecidableEq, Repr

/-- Reading the packed byte into the two bit-fields (union access via .bytes):
gpio_num is the low 5 bits, pwm_mode the next 3 bits. -/
def decode (b : ℕ) : fan_config :=
  ⟨b % 32, b / 32 % 8⟩

/-- Producing the packed byte from the two bit-fields (union access in the
other direction). -/
def encode (c : fan_config) : ℕ :=
  c.gpio_num % 32 + c.pwm_mode % 8 * 32

/-- The gpio branch body of main (lines 118-120): config.pwm_mode is taken
from the previously read config, config.gpio_num from the new value; the
5-bit bit-field stores the value mod 32. -/
def applyGpio (c : fan_config) (g : ℕ) : fan_config :=
  ⟨g % 32, c.pwm_mode⟩

/-- The pwm branch body of main (lines 131-133): config.gpio_num is taken
from the previously read config, config.pwm_mode from the new value; the
3-bit bit-field stores the value mod 8. -/
def applyMode (c : fan_config) (m : ℕ) : fan_config :=
  ⟨c.gpio_num, m % 8⟩

/-- The PWM_GPIOS switch cases of main (line 17): 12, 13, 18, 19. -/
def isPwmCapable (g : ℕ) : Bool :=
  g == 12 || g == 13 || g == 18 || g == 19

/-- Two's-complement wraparound of a 32-bit signed int. -/
def wrap32 (x : Int) : Int :=
  Int.emod (x + 2 ^ 31) (2 ^ 32) - 2 ^ 31

/-- Conversion of a signed value to uint64_t (reduction mod 2^64). -/
def toU64 (x : Int) : ℕ :=
  (Int.emod x (2 ^ 64)).toNat

/-- Conversion of a signed value to uint8_t (reduction mod 2^8). -/
def toU8 (x : Int) : ℕ :=
  (Int.emod x 256).toNat

/-- C integer division by 100: truncation toward zero. -/
def cdiv100 (a : Int) : Int :=
  if 0 ≤ a then ((a.toNat / 100 : ℕ) : Int) else -(((-a).toNat / 100 : ℕ) : Int)

/-- duty_c of main line 138: (atoi(duty_cycle) * PWM_PERIOD) / 100 computed in
32-bit signed int arithmetic (the multiplication wraps), then converted to
uint64_t.  p is the int returned by atoi. -/
def dutyRaw (p : Int) : ℕ :=
  toU64 (cdiv100 (wrap32 (p * 50000000)))

/-- Device / process operations performed by one invocation of main, in
order: opening /dev/rpifan, the initial 4-byte config read, close(fd), fork,
the WR_PWM_VALUE ioctl with its uint64 argument, and the 4-byte config
write-back.  writeCfg carries the byte written, or none when the config
variable was never assigned (uninitialized memory is written). -/
inductive Event where
  | openDev : Event
  | readCfg : Event
  | closeDev : Event
  | forkEv : Event
  | ioctlWrite : ℕ → Event
  | writeCfg : Option ℕ → Event
deriving DecidableEq, Repr

/-- Parsed command-line state after getopt: adapt_ms (0 when the -a flag is
absent, exactly as in main), and the atoi results of the -p, -g, -c flag
arguments and of the positional value (none when absent). -/
structure Args where
  adapt_ms : ℕ
  pwm : Option Int
  gpio : Option Int
  duty : Option Int
  positional : Option Int
deriving DecidableEq, Repr

/-- Trace and exit status of every early-error return of main that follows
the successful open and initial read: close(fd) then return -1. -/
def rejectRun : List Event × Int :=
  ([Event.openDev, Event.readCfg, Event.closeDev], -1)

/-- Final config write-back of main (lines 195-205) followed by close(fd) and
return 0; cfg = none models the config variable never having been assigned
(main writes the uninitialized byte). -/
def writeBack (cfg : Option fan_config) : List Event × Int :=
  ([Event.openDev, Event.readCfg, Event.writeCfg (cfg.map encode), Event.closeDev], 0)

/-- Adaptive-PWM block of main (lines 174-192): when adapt_ms is nonzero and
the stored gpio_num is one of the PWM_GPIOS cases, the process forks and the
parent jumps to _exit (close, return 0).  In the default switch case an error
is printed and control falls through to the config write-back; likewise when
adapt_ms is zero the write-back runs. -/
def mainAdaptive (a : Args) (old : fan_config) (cfg : Option fan_config) :
    List Event × Int :=
  if a.adapt_ms ≠ 0 ∧ isPwmCapable old.gpio_num then
    ([Event.openDev, Event.readCfg, Event.forkEv, Event.closeDev], 0)
  else
    writeBack cfg

/-- Positional-value block of main (lines 153-170), reached only when no -g,
-p flag was given and adapt_ms is zero: a missing positional value is an
error, the value is parsed with atoi and cast to uint8_t, and a resulting
byte of 0 is rejected (in this branch pwm_value is NULL, so the second half
of the line-165 condition is true). -/
def mainPositional (a : Args) (old : fan_config) (cfg : Option fan_config) :
    List Event × Int :=
  if a.gpio = none ∧ a.pwm = none ∧ a.adapt_ms = 0 then
    match a.positional with
    | none => rejectRun
    | some v =>
        if toU8 v = 0 then rejectRun
        else mainAdaptive a old (some (decode (toU8 v)))
  else mainAdaptive a old cfg

/-- Duty-cycle block of main (lines 137-150): duty_c is computed in 32-bit
int arithmetic and cast to uint64_t; duty_c < 0 is always false on the
unsigned value, duty_c > PWM_PERIOD rejects; otherwise the ioctl write is
issued and main returns 0 immediately, without reaching close(fd). -/
def mainDuty (a : Args) (old : fan_config) (cfg : Option fan_config) :
    List Event × Int :=
  match a.duty with
  | some p =>
      let dc := dutyRaw p
      if dc < 0 ∨ PWM_PERIOD < dc then rejectRun
      else ([Event.openDev, Event.readCfg, Event.ioctlWrite dc], 0)
  | none => mainPositional a old cfg

/-- PWM-mode block of main (lines 124-134): atoi result outside [0,7] is
rejected, otherwise the config is rebuilt from the stored gpio_num and the
new mode. -/
def mainPwm (a : Args) (old : fan_config) (cfg : Option fan_config) :
    List Event × Int :=
  match a.pwm with
  | some m =>
      if m < 0 ∨ 7 < m then rejectRun
      else mainDuty a old (some (applyMode old m.toNat))
  | none => mainDuty a old cfg

/-- One whole invocation of main after a successful open of /dev/rpifan and a
successful initial read (lines 94-209), as the trace of device and process
operations it performs together with its exit status.  stored is the decimal
value read from the device; main casts it to uint8_t. -/
def runMain (a : Args) (stored : ℕ) : List Event × Int :=
  let old := decode (stored % 256)
  match a.gpio with
  | some g =>
      if g < 2 ∨ 30 < g then rejectRun
      else mainPwm a old (some (applyGpio old g.toNat))
  | none => mainPwm a old none

/-- One tick of the adaptive governor loop (adaptive, lines 240-258): the
running maximum is raised first, then the new duty cycle is
(curr * PWM_PERIOD) / max in uint64_t arithmetic.  When the running maximum
is still 0 the division is a division by zero — undefined behavior in C —
modelled as none. -/
def govTick (ceiling t : ℕ) : ℕ × Option ℕ :=
  let c' := max ceiling t
  (c', if c' = 0 then none else some (t * PWM_PERIOD % 2 ^ 64 / c'))

/-- The ceiling (max_temp) after a run of governor ticks starting from a
given ceiling; max_temp is initialized to 0 at process start. -/
def ceilSeq : ℕ → List ℕ → ℕ
  | c, [] => c
  | c, t :: r => ceilSeq (govTick c t).1 r

/-- The sequence of duty-cycle values written by a run of governor ticks
starting from a given ceiling. -/
def govRun : ℕ → List ℕ → List (Option ℕ)
  | _, [] => []
  | c, t :: r => (govTick c t).2 :: govRun (govTick c t).1 r

/-- The -g range check of main line 113 fails: some gpio argument parses
outside [2,30]. -/
def gpioInvalid (a : Args) : Prop :=
  ∃ g, a.gpio = some g ∧ (g < 2 ∨ 30 < g)

/-- The -g range check of main line 113 passes (or no -g flag is present). -/
def gpioValid (a : Args) : Prop :=
  ∀ g, a.gpio = some g → 2 ≤ g ∧ g ≤ 30

/-- The -p range check of main line 126 fails: some pwm argument parses
outside [0,7]. -/
def pwmInvalid (a : Args) : Prop :=
  ∃ m, a.pwm = some m ∧ (m < 0 ∨ 7 < m)

/-- The -p range check of main line 126 passes (or no -p flag is present). -/
def pwmValid (a : Args) : Prop :=
  ∀ m, a.pwm = some m → 0 ≤ m ∧ m ≤ 7

/-- The -c range check of main line 140 fails: the computed duty_c exceeds
PWM_PERIOD (the duty_c < 0 half of the check is vacuous on the unsigned
value). -/
def dutyInvalid (a : Args) : Prop :=
  ∃ p, a.duty = some p ∧ PWM_PERIOD < dutyRaw p

theorem ceilSeq_eq_foldl (l : List ℕ) : ∀ c, ceilSeq c l = List.foldl max c l := by
  induction l with
  | nil => intro c; rfl
  | cons t r ih => intro c; simpa [ceilSeq, govTick] using ih (max c t)

theorem close_mem_writeBack (cfg : Option fan_config) :
    Event.closeDev ∈ (writeBack cfg).1 := by
  simp [writeBack]

theorem close_mem_mainAdaptive (a : Args) (old : fan_config) (cfg : Option fan_config) :
    Event.closeDev ∈ (mainAdaptive a old cfg).1 := by
  by_cases h : a.adapt_ms ≠ 0 ∧ isPwmCapable old.gpio_num
  · simp [mainAdaptive, h]
  · simp only [mainAdaptive, if_neg h]
    exact close_mem_writeBack cfg

theorem close_mem_mainPositional (a : Args) (old : fan_config) (cfg : Option fan_config) :
    Event.closeDev ∈ (mainPositional a old cfg).1 := by
  by_cases h : a.gpio = none ∧ a.pwm = none ∧ a.adapt_ms = 0
  · cases hpos : a.positional with
    | none => simp [mainPositional, h, hpos, rejectRun]
    | some v =>
        by_cases hz : toU8 v = 0
        · simp [mainPositional, h, hpos, hz, rejectRun]
        · simp only [mainPositional, if_pos h, hpos, if_neg hz]
          exact close_mem_mainAdaptive a old _
  · simp only [mainPositional, if_neg h]
    exact close_mem_mainAdaptive a old cfg

theorem close_mem_mainDuty (a : Args) (old : fan_config) (cfg : Option fan_config)
    (h : a.duty = none ∨ dutyInvalid a) :
    Event.closeDev ∈ (mainDuty a old cfg).1 := by
  rcases h with h | ⟨p, hp, hbig⟩
  · simp only [mainDuty, h]
    exact close_mem_mainPositional a old cfg
  · simp [mainDuty, hp, hbig, rejectRun]

theorem close_mem_mainPwm (a : Args) (old : fan_config) (cfg : Option fan_config)
    (h : a.duty = none ∨ dutyInvalid a) :
    Event.closeDev ∈ (mainPwm a old cfg).1 := by
  cases hm : a.pwm with
  | none =>
      simp only [mainPwm, hm]
      exact close_mem_mainDuty a old cfg h
  | some m =>
      by_cases hbad : m < 0 ∨ 7 < m
      · simp [mainPwm, hm, hbad, rejectRun]
      · simp only [mainPwm, hm, if_neg hbad]
        exact close_mem_mainDuty a old _ h

/-- C7: for every byte b in [0,255], encoding the fan_config obtained by
decoding b yields b again, where decode extracts gpio_num from the low 5 bits
and pwm_mode from the next 3 bits. -/
theorem C7_codec_roundtrip : ∀ b < 256, encode (decode b) = b := by
  intro b hb
  simp only [encode, decode]
  omega

theorem C7_codec_roundtrip_w : 44 < 256 ∧ encode (decode 44) = 44 :=
  ⟨by decide, C7_codec_roundtrip 44 (by decide)⟩

/-- C8: a single-field update preserves the untouched sub-field: for every
prior config c and valid gpio g in [2,30], applyGpio keeps pwm_mode, and for
every valid mode m in [0,7], applyMode keeps gpio_num. -/
theorem C8_frame_preserving (c : fan_config) (g m : ℕ)
    (_hg : 2 ≤ g ∧ g ≤ 30) (_hm : m ≤ 7) :
    (applyGpio c g).pwm_mode = c.pwm_mode ∧ (applyMode c m).gpio_num = c.gpio_num :=
  ⟨rfl, rfl⟩

theorem C8_frame_preserving_w :
    (2 ≤ 13 ∧ 13 ≤ 30) ∧ 3 ≤ 7 ∧
      ((applyGpio ⟨12, 5⟩ 13).pwm_mode = (⟨12, 5⟩ : fan_config).pwm_mode ∧
        (applyMode ⟨12, 5⟩ 3).gpio_num = (⟨12, 5⟩ : fan_config).gpio_num) :=
  ⟨by decide, by decide, C8_frame_preserving ⟨12, 5⟩ 13 3 (by decide) (by decide)⟩

/-- C6: for a fixed governor run the ceiling (max_temp) starts at 0 and is
monotonically non-decreasing across ticks: after any further sample it is at
least what it was before. -/
theorem C6_ceiling_monotone :
    ceilSeq 0 [] = 0 ∧
      ∀ (l : List ℕ) (t : ℕ), ceilSeq 0 l ≤ ceilSeq 0 (l ++ [t]) := by
  refine ⟨rfl, fun l t => ?_⟩
  rw [ceilSeq_eq_foldl, ceilSeq_eq_foldl, List.foldl_append]
  exact le_max_left _ _

/-- C10: the per-tick duty computation divides by the running maximum with no
zero guard: the division is defined exactly when the ceiling after the update
is positive, and a run whose samples all parse to 0 keeps the ceiling at 0
and hits the division by zero (modelled as none) at every tick. -/
theorem C10_div_by_zero :
    (∀ n, govRun 0 (List.replicate n 0) = List.replicate n none) ∧
    (∀ n, ceilSeq 0 (List.replicate n 0) = 0) ∧
    (∀ c t, (govTick c t).2 = none ↔ max c t = 0) := by
  refine ⟨?_, ?_, ?_⟩
  · intro n
    induction n with
    | zero => rfl
    | succ k ih => simpa [List.replicate_succ, govRun, govTick] using ih
  · intro n
    induction n with
    | zero => rfl
    | succ k ih => simpa [List.replicate_succ, ceilSeq, govTick] using ih
  · intro c t
    rcases eq_or_ne (max c t) 0 with h | h <;> simp [govTick, h]

/-- C5 counterexample: the claim fails as stated.  At a first tick with
sample 0 the updated ceiling is 0 and the duty computation is a division by
zero (modelled as none), not PWM_PERIOD; and at a first tick whose sample is
the uint64 image of a negative atoi result (2^64 - 5000, i.e. a sensor
reading of -5000 millidegrees) the sample equals the updated ceiling, the
claim demands exactly PWM_PERIOD, but the 64-bit product wraps and the duty
actually computed is 0. -/
theorem C5_cex :
    (govTick 0 0).1 = 0 ∧ (govTick 0 0).2 ≠ some PWM_PERIOD ∧
    (govTick 0 (2 ^ 64 - 5000)).1 = 2 ^ 64 - 5000 ∧
    (govTick 0 (2 ^ 64 - 5000)).2 = some 0 ∧
    (2 ^ 64 - 5000) * PWM_PERIOD / (2 ^ 64 - 5000) = PWM_PERIOD := by
  refine ⟨by decide, by decide, by decide, by decide, by decide⟩

/-- C5 (amended): at every governor tick whose sample is below 2^31 (every
value atoi can produce for a nonnegative sensor reading, so the 64-bit
multiplication cannot wrap) and whose updated ceiling is positive (at least
one positive sample so far), the duty written is exactly
t * PWM_PERIOD / ceiling, and when the sample equals the updated ceiling the
duty is exactly PWM_PERIOD. -/
theorem C5_gov_duty_formula (c t : ℕ) (ht : t < 2 ^ 31) (hc : 0 < max c t) :
    (govTick c t).2 = some (t * PWM_PERIOD / max c t) ∧
    (t = max c t → (govTick c t).2 = some PWM_PERIOD) := by
  have hne : max c t ≠ 0 := hc.ne'
  have hb : t * PWM_PERIOD < 18446744073709551616 := by
    have h1 : t * PWM_PERIOD ≤ 2147483647 * PWM_PERIOD :=
      Nat.mul_le_mul_right _ (by omega)
    have h2 : (2147483647 : ℕ) * PWM_PERIOD < 18446744073709551616 := by
      norm_num [PWM_PERIOD]
    omega
  have hmod : t * PWM_PERIOD % 18446744073709551616 = t * PWM_PERIOD :=
    Nat.mod_eq_of_lt hb
  constructor
  · simp [govTick, hne, hmod]
  · intro hEq
    have ht0 : 0 < t := by rw [hEq]; exact hc
    have hdiv : t * PWM_PERIOD / max c t = PWM_PERIOD := by
      rw [← hEq]
      exact Nat.mul_div_cancel_left PWM_PERIOD ht0
    simp [govTick, hne, hmod, hdiv]

theorem C5_gov_duty_formula_w :
    (45000 : ℕ) < 2 ^ 31 ∧ 0 < max 0 45000 ∧
      ((govTick 0 45000).2 = some (45000 * PWM_PERIOD / max 0 45000) ∧
        (45000 = max 0 45000 → (govTick 0 45000).2 = some PWM_PERIOD)) :=
  ⟨by decide, by decide, C5_gov_duty_formula 0 45000 (by decide) (by decide)⟩

/-- C1: the claim says duty percentage 50 produces a raw write of 25000000,
100 maps to PWM_PERIOD, and 101 is rejected.  The code computes
(atoi(duty_cycle) * PWM_PERIOD) / 100 in 32-bit signed arithmetic, which
wraps for every percentage at or above 43: 50 wraps negative and is rejected
with the range error (no ioctl write at all), 100 is accepted but writes
7050327, and 101 is accepted and writes 7550327; 0 and -1 behave as claimed. -/
theorem C1_duty_overflow_eval :
    runMain ⟨0, none, none, some 50, none⟩ 0 = rejectRun ∧
    runMain ⟨0, none, none, some 100, none⟩ 0 =
      ([Event.openDev, Event.readCfg, Event.ioctlWrite 7050327], 0) ∧
    runMain ⟨0, none, none, some 101, none⟩ 0 =
      ([Event.openDev, Event.readCfg, Event.ioctlWrite 7550327], 0) ∧
    runMain ⟨0, none, none, some 0, none⟩ 0 =
      ([Event.openDev, Event.readCfg, Event.ioctlWrite 0], 0) ∧
    runMain ⟨0, none, none, some (-1), none⟩ 0 = rejectRun :=
  ⟨rfl, rfl, rfl, rfl, rfl⟩

/-- C2: governor start (-a 1000) with stored config byte 5 (gpio_num = 5, not
PWM-capable).  The code prints the unsupported-pin error and indeed never
forks, but the switch default falls through: the uninitialized config
variable is written to the device and the process exits 0, not non-zero. -/
theorem C2_unsupported_pin_eval :
    (runMain ⟨1000, none, none, none, none⟩ 5).2 = 0 ∧
    Event.forkEv ∉ (runMain ⟨1000, none, none, none, none⟩ 5).1 ∧
    Event.writeCfg none ∈ (runMain ⟨1000, none, none, none, none⟩ 5).1 := by
  decide

/-- C3 counterexample: an invocation carrying the out-of-range GPIO 31 is
rejected with exit -1, yet its trace contains the device open and the
initial config read — device I/O that happened before the range check
failed, contradicting the claim that no open or read precedes the
rejection. -/
theorem C3_cex :
    (runMain ⟨0, none, some 31, none, none⟩ 7).2 = -1 ∧
    Event.openDev ∈ (runMain ⟨0, none, some 31, none, none⟩ 7).1 ∧
    Event.readCfg ∈ (runMain ⟨0, none, some 31, none, none⟩ 7).1 := by
  decide

/-- C3 (amended): for every invocation carrying an out-of-range GPIO, PWM
mode, or duty value, the rejection happens before any device write or
control call: the whole trace is exactly open, initial config read, close,
with exit status -1 — the open and the initial read do occur before the
range check, but no write and no ioctl ever happens. -/
theorem C3_reject_before_write (a : Args) (stored : ℕ)
    (h : gpioInvalid a ∨ (gpioValid a ∧ pwmInvalid a) ∨
          (gpioValid a ∧ pwmValid a ∧ dutyInvalid a)) :
    runMain a stored = rejectRun := by
  rcases h with ⟨g, hg, hbad⟩ | ⟨hgok, m, hm, hbad⟩ | ⟨hgok, hmok, p, hp, hbad⟩
  · simp [runMain, hg, hbad]
  · have hgpio : ∀ g, a.gpio = some g → ¬(g < 2 ∨ 30 < g) := by
      intro g hgg
      have := hgok g hgg
      omega
    cases hgg : a.gpio with
    | none => simp [runMain, hgg, mainPwm, hm, hbad]
    | some g => simp [runMain, hgg, hgpio g hgg, mainPwm, hm, hbad]
  · have hgpio : ∀ g, a.gpio = some g → ¬(g < 2 ∨ 30 < g) := by
      intro g hgg
      have := hgok g hgg
      omega
    have hpwm : ∀ m, a.pwm = some m → ¬(m < 0 ∨ 7 < m) := by
      intro m hmm
      have := hmok m hmm
      omega
    have hduty : ∀ old cfg, mainDuty a old cfg = rejectRun := by
      intro old cfg
      simp [mainDuty, hp, hbad]
    cases hgg : a.gpio with
    | none =>
        cases hmm : a.pwm with
        | none => simp [runMain, hgg, mainPwm, hmm, hduty]
        | some m => simp [runMain, hgg, mainPwm, hmm, hpwm m hmm, hduty]
    | some g =>
        cases hmm : a.pwm with
        | none => simp [runMain, hgg, hgpio g hgg, mainPwm, hmm, hduty]
        | some m => simp [runMain, hgg, hgpio g hgg, mainPwm, hmm, hpwm m hmm, hduty]

theorem C3_reject_before_write_w :
    gpioInvalid ⟨0, none, some 31, none, none⟩ ∧
      runMain ⟨0, none, some 31, none, none⟩ 7 = rejectRun :=
  ⟨⟨31, rfl, by decide⟩,
    C3_reject_before_write _ 7 (Or.inl ⟨31, rfl, by decide⟩)⟩

/-- C4: the claim says the governor-start path never writes the config byte
back, for any stored GPIO.  With stored byte 37 (gpio_num = 5, pwm_mode = 1)
the governor start falls through the non-PWM-capable switch default into the
write-back, and a config byte (from the uninitialized config variable) is
written to the device. -/
theorem C4_governor_path_writes_config :
    runMain ⟨2000, none, none, none, none⟩ 37 =
      ([Event.openDev, Event.readCfg, Event.writeCfg none, Event.closeDev], 0) ∧
    Event.writeCfg none ∈ (runMain ⟨2000, none, none, none, none⟩ 37).1 := by
  decide

/-- C9 counterexample: the accepted duty-cycle-only invocation -c 10 writes
its ioctl value and exits 0 without ever calling close on the device
descriptor, contradicting the claim that the descriptor is released on every
exit path including the duty-cycle-only path. -/
theorem C9_cex :
    (runMain ⟨0, none, none, some 10, none⟩ 3).2 = 0 ∧
    Event.closeDev ∉ (runMain ⟨0, none, none, some 10, none⟩ 3).1 := by
  decide

/-- C9 (amended): the device descriptor is released on every exit path of the
invocation except the accepted duty-cycle-only path: whenever the -c flag is
absent, or present with a computed duty above PWM_PERIOD (so the duty branch
rejects), the trace contains close. -/
theorem C9_close_on_exit (a : Args) (stored : ℕ)
    (h : a.duty = none ∨ dutyInvalid a) :
    Event.closeDev ∈ (runMain a stored).1 := by
  cases hgg : a.gpio with
  | none =>
      simp only [runMain, hgg]
      exact close_mem_mainPwm a _ none h
  | some g =>
      by_cases hbad : g < 2 ∨ 30 < g
      · simp [runMain, hgg, hbad, rejectRun]
      · simp only [runMain, hgg, if_neg hbad]
        exact close_mem_mainPwm a _ _ h

theorem C9_close_on_exit_w :
    (Args.mk 0 none none none (some 44)).duty = none ∧
      Event.closeDev ∈ (runMain ⟨0, none, none, none, some 44⟩ 0).1 :=
  ⟨rfl, C9_close_on_exit _ 0 (Or.inl rfl)⟩

end RpiFan
